import Mathlib

/-!
Shallow embedding of the Rocket Escape simulation core (`src/game.js`).

JS numbers are modelled as exact rationals (`ℚ`); all properties proved
here are order/clamping facts that are insensitive to binary rounding.
`Math.random()` is modelled as an oracle stream `ℕ → ℚ` together with a
cursor, consumed left to right in exactly the order the source draws
random values.  DOM/UI writes are modelled only insofar as they carry
simulation-relevant state (the pending game-over timer and the frozen
final-altitude output slot); pure presentation writes are elided.
-/

namespace RocketEscape

/-- Game constants from `src/game.js` lines 27-32 (`GRAVITY = 0.15`). -/
def GRAVITY : ℚ := 3/20

/-- Constant `THRUST_POWER = 0.45`. -/
def THRUST_POWER : ℚ := 9/20

/-- Constant `MAX_HEAT = 100`. -/
def MAX_HEAT : ℚ := 100

/-- Constant `HEAT_UP_RATE = 1.5`. -/
def HEAT_UP_RATE : ℚ := 3/2

/-- Constant `COOL_DOWN_RATE = 0.8`. -/
def COOL_DOWN_RATE : ℚ := 4/5

/-- The four values of the `gameState` variable. -/
inductive GameState where
  | START
  | PLAYING
  | EXPLODED
  | FINISHED
deriving DecidableEq, Repr

/-- The `rocket` record (`src/game.js` lines 36-45). -/
structure Rocket where
  y : ℚ
  vy : ℚ
  altitude : ℚ
  maxAltitude : ℚ
  heat : ℚ
  isBoosting : Bool
  width : ℚ
  height : ℚ
deriving DecidableEq, Repr

/-- A particle object as pushed onto the `particles` array. -/
structure Particle where
  x : ℚ
  y : ℚ
  vx : ℚ
  vy : ℚ
  life : ℚ
  size : ℚ
  color : String
deriving DecidableEq, Repr

/-- A background entity: the star and cloud objects have the same shape
(`x`, `y`, `size`, `speed`). -/
structure BgEntity where
  x : ℚ
  y : ℚ
  size : ℚ
  speed : ℚ
deriving DecidableEq, Repr

/-- The `Math.random()` oracle: an infinite stream of draws plus a cursor. -/
structure RState where
  rng : ℕ → ℚ
  idx : ℕ

/-- Draw the next random value and advance the cursor. -/
def RState.next (r : RState) : ℚ × RState :=
  (r.rng r.idx, { r with idx := r.idx + 1 })

/-- The stream only produces values in `[0, 1)`, as `Math.random()` does. -/
def RState.Bounded (r : RState) : Prop :=
  ∀ n, 0 ≤ r.rng n ∧ r.rng n < 1

/-- The whole mutable module state of `src/game.js`: `gameState`, `rocket`,
`particles`, `stars`, `clouds`, the canvas dimensions, the pending
`setTimeout` scheduled by `showGameOver`, and the frozen final-altitude
output written when that timer fires. -/
structure Sim where
  gameState : GameState
  rocket : Rocket
  particles : List Particle
  stars : List BgEntity
  clouds : List BgEntity
  canvasWidth : ℚ
  canvasHeight : ℚ
  pendingTimer : Bool
  finalAltitudeKm : ℤ
  rand : RState

/-- Map a random-consuming function over a list front to back,
threading the oracle exactly as `Array.prototype.forEach` does. -/
def mapRand {α : Type} (f : α → RState → α × RState) :
    List α → RState → List α × RState
  | [], r => ([], r)
  | a :: rest, r =>
    let p := f a r
    let q := mapRand f rest p.2
    (p.1 :: q.1, q.2)

/-- Generate `n` elements from a random-consuming generator
(models the `for` loops in `initBackground` and `explode`). -/
def genList {α : Type} (f : RState → α × RState) :
    ℕ → RState → List α × RState
  | 0, r => ([], r)
  | n + 1, r =>
    let p := f r
    let rest := genList f n p.2
    (p.1 :: rest.1, rest.2)

/-- One star literal from `initBackground` (lines 69-74). -/
def mkStar (W H : ℚ) (r : RState) : BgEntity × RState :=
  let p1 := r.next
  let p2 := p1.2.next
  let p3 := p2.2.next
  let p4 := p3.2.next
  let st : BgEntity :=
    { x := p1.1 * W
      y := p2.1 * H
      size := p3.1 * 2
      speed := p4.1 * (1/2) + 1/10 }
  (st, p4.2)

/-- One cloud literal from `initBackground` (lines 80-85). -/
def mkCloud (W H : ℚ) (r : RState) : BgEntity × RState :=
  let p1 := r.next
  let p2 := p1.2.next
  let p3 := p2.2.next
  let p4 := p3.2.next
  let c : BgEntity :=
    { x := p1.1 * W
      y := p2.1 * H
      size := p3.1 * 100 + 50
      speed := p4.1 * 1 + 1/2 }
  (c, p4.2)

/-- Function `initBackground()`: 100 fresh stars then 5 fresh clouds. -/
def initBackground (s : Sim) : Sim :=
  let st := genList (mkStar s.canvasWidth s.canvasHeight) 100 s.rand
  let cl := genList (mkCloud s.canvasWidth s.canvasHeight) 5 st.2
  { s with stars := st.1, clouds := cl.1, rand := cl.2 }

/-- The vessel/particle reset performed by `startGame()`: state PLAYING,
fresh rocket record (lines 118-127), empty particle pool. -/
def resetSim (s : Sim) : Sim :=
  let rk : Rocket :=
    { y := s.canvasHeight * (8/10)
      vy := 0
      altitude := 0
      maxAltitude := 0
      heat := 0
      isBoosting := false
      width := 30
      height := 60 }
  { s with gameState := GameState.PLAYING, rocket := rk, particles := [] }

/-- Function `startGame()` (lines 115-137): set state to PLAYING, reset the rocket
record, clear the particle pool, and reseed the background only when the
star array is empty (clouds are not consulted).  The reset leaves `stars`
untouched, so the guard reads the same array the source's global holds at
that point.  The pending game-over timer is NOT cancelled (the source has
no `clearTimeout`). -/
def startGame (s : Sim) : Sim :=
  if s.stars.length = 0 then initBackground (resetSim s) else resetSim s

/-- Handler `handleInputStart`: boost begins only while PLAYING. -/
def boostStart (s : Sim) : Sim :=
  if s.gameState = GameState.PLAYING then
    { s with rocket := { s.rocket with isBoosting := true } }
  else s

/-- Handler `handleInputEnd`: boost always stops. -/
def boostEnd (s : Sim) : Sim :=
  { s with rocket := { s.rocket with isBoosting := false } }

/-- Model of `Math.floor`, computed directly on the reduced fraction so
that proofs can evaluate it by kernel reduction. -/
def jsFloor (q : ℚ) : ℤ := Int.fdiv q.num (q.den : ℤ)

/-- The `setTimeout` callback scheduled by `showGameOver` (lines 164-169):
it unconditionally sets `gameState = 'FINISHED'` and freezes
`Math.floor(rocket.maxAltitude / 100)` into the final-altitude slot. -/
def timerFire (s : Sim) : Sim :=
  { s with
      gameState := GameState.FINISHED
      finalAltitudeKm := jsFloor (s.rocket.maxAltitude / 100)
      pendingTimer := false }

/-- One explosion particle (lines 148-156): x at canvas centre, y at the
rocket, velocity `(Math.random() - 0.5) * 15` on each axis, life 1.0,
size `Math.random() * 10 + 5`, fixed color. -/
def explodeParticle (y W : ℚ) (r : RState) : Particle × RState :=
  let p1 := r.next
  let p2 := p1.2.next
  let p3 := p2.2.next
  let pt : Particle :=
    { x := W / 2
      y := y
      vx := (p1.1 - 1/2) * 15
      vy := (p2.1 - 1/2) * 15
      life := 1
      size := p3.1 * 10 + 5
      color := "#FF3D00" }
  (pt, p3.2)

/-- Function `explode()` (lines 140-158): set state to EXPLODED, schedule the
game-over timer (`showGameOver`), and push 50 explosion particles. -/
def explode (s : Sim) : Sim :=
  let g := genList (explodeParticle s.rocket.y s.canvasWidth) 50 s.rand
  { s with
      gameState := GameState.EXPLODED
      pendingTimer := true
      particles := s.particles ++ g.1
      rand := g.2 }

/-- One exhaust particle (lines 187-195); `heat` is the rocket heat after
this tick's increment, which selects the color. -/
def exhaustParticle (W y height heat : ℚ) (r : RState) : Particle × RState :=
  let p1 := r.next
  let p2 := p1.2.next
  let p3 := p2.2.next
  let p4 := p3.2.next
  let pt : Particle :=
    { x := W / 2 + (p1.1 - 1/2) * 10
      y := y + height / 2
      vx := (p2.1 - 1/2) * 2
      vy := 5 + p3.1 * 5
      life := 1
      size := p4.1 * 8 + 2
      color := if 80 < heat then "#ffaa00" else "#FF5F1F" }
  (pt, p4.2)

/-- Lines 180-202 of `update()`: thrust/heat-up plus capped exhaust
creation while boosting, cool-down otherwise, then the lower heat clamp
`rocket.heat = Math.max(0, rocket.heat)`. -/
def boostPhase (s : Sim) : Sim :=
  let s1 : Sim :=
    if s.rocket.isBoosting then
      let rk : Rocket :=
        { s.rocket with
            vy := s.rocket.vy - THRUST_POWER
            heat := s.rocket.heat + HEAT_UP_RATE }
      if s.particles.length < 200 then
        let e := exhaustParticle s.canvasWidth rk.y rk.height rk.heat s.rand
        { s with rocket := rk, particles := s.particles ++ [e.1], rand := e.2 }
      else
        { s with rocket := rk }
    else
      { s with rocket := { s.rocket with heat := s.rocket.heat - COOL_DOWN_RATE } }
  { s1 with rocket := { s1.rocket with heat := max 0 s1.rocket.heat } }

/-- Lines 205-207: `if (rocket.heat >= MAX_HEAT) explode()`. -/
def overheatCheck (s : Sim) : Sim :=
  if MAX_HEAT ≤ s.rocket.heat then explode s else s

/-- Lines 210-218: gravity, Euler integration, and altitude bookkeeping
(`altitude += Math.max(0, -vy)`, `maxAltitude = Math.max(maxAltitude, altitude)`). -/
def gravityPhase (s : Sim) : Sim :=
  let vy1 := s.rocket.vy + GRAVITY
  let y1 := s.rocket.y + vy1
  let alt1 := s.rocket.altitude + max 0 (-vy1)
  let rk : Rocket :=
    { s.rocket with
        vy := vy1
        y := y1
        altitude := alt1
        maxAltitude := max s.rocket.maxAltitude alt1 }
  { s with rocket := rk }

/-- Lines 221-226: ground clamp at 80% of the viewport height. -/
def groundClamp (s : Sim) : Sim :=
  if s.canvasHeight * (8/10) < s.rocket.y then
    { s with rocket := { s.rocket with y := s.canvasHeight * (8/10), vy := 0 } }
  else s

/-- The PLAYING-only physics block of `update()` (lines 178-227), in
source order.  Note that when `overheatCheck` fires, gravity, integration
and the ground clamp still run in the same tick, exactly as in the source
(the `if (gameState === 'PLAYING')` block was already entered). -/
def physicsStep (s : Sim) : Sim :=
  groundClamp (gravityPhase (overheatCheck (boostPhase s)))

/-- One particle's per-tick motion and decay (lines 232-234). -/
def particleTick (p : Particle) : Particle :=
  { p with x := p.x + p.vx, y := p.y + p.vy, life := p.life - 1/50 }

/-- Lines 230-239: move/decay every particle, then drop those with
`life <= 0 || y > canvas.height + 50` (the backwards splice loop is a
stable filter). -/
def particlesStep (s : Sim) : Sim :=
  let ps := (s.particles.map particleTick).filter
    (fun p => !(decide (p.life ≤ 0 ∨ s.canvasHeight + 50 < p.y)))
  { s with particles := ps }

/-- One star's drift and wrap (lines 242-247): drift by
`rocket.vy * 0.5 + speed`; wrap to the top (y = -10) when below the
viewport, to the bottom (y = height) when above the top margin, with a
fresh random x in both cases. -/
def starUpdate (vy H W : ℚ) (st : BgEntity) (r : RState) :
    BgEntity × RState :=
  if H < st.y + vy * (1/2) + st.speed then
    let p := r.next
    ({ st with y := -10, x := p.1 * W }, p.2)
  else if st.y + vy * (1/2) + st.speed < -10 then
    let p := r.next
    ({ st with y := H, x := p.1 * W }, p.2)
  else
    ({ st with y := st.y + vy * (1/2) + st.speed }, r)

/-- Lines 242-247 over the whole star array. -/
def starsStep (s : Sim) : Sim :=
  let q := mapRand (starUpdate s.rocket.vy s.canvasHeight s.canvasWidth)
      s.stars s.rand
  { s with stars := q.1, rand := q.2 }

/-- One cloud's drift and wrap (lines 250-253): drift by
`rocket.vy * 0.8 + speed`; wrap (y = -100, fresh random x) only when
below the viewport — there is no wrap branch for clouds leaving upward. -/
def cloudUpdate (vy H W : ℚ) (c : BgEntity) (r : RState) :
    BgEntity × RState :=
  if H < c.y + vy * (8/10) + c.speed then
    let p := r.next
    ({ c with y := -100, x := p.1 * W }, p.2)
  else
    ({ c with y := c.y + vy * (8/10) + c.speed }, r)

/-- Lines 250-253 over the whole cloud array. -/
def cloudsStep (s : Sim) : Sim :=
  let q := mapRand (cloudUpdate s.rocket.vy s.canvasHeight s.canvasWidth)
      s.clouds s.rand
  { s with clouds := q.1, rand := q.2 }

/-- Function `update()` (lines 173-272): early return unless PLAYING or EXPLODED;
physics only while PLAYING; particle, star and cloud updates in both
PLAYING and EXPLODED. -/
def update (s : Sim) : Sim :=
  if s.gameState = GameState.PLAYING ∨ s.gameState = GameState.EXPLODED then
    let s1 := if s.gameState = GameState.PLAYING then physicsStep s else s
    cloudsStep (starsStep (particlesStep s1))
  else s

/-- Iterated ticks: `n` consecutive ticks of the game loop. -/
def ticks : ℕ → Sim → Sim
  | 0, s => s
  | n + 1, s => update (ticks n s)

/-- The initial module state: `gameState = 'START'`, the initial rocket
literal (lines 36-45), empty particle/star/cloud arrays, canvas 800x600,
no pending timer; the oracle stream is left abstract-but-concrete. -/
def init0 : Sim :=
  { gameState := GameState.START
    rocket :=
      { y := 0
        vy := 0
        altitude := 0
        maxAltitude := 0
        heat := 0
        isBoosting := false
        width := 30
        height := 60 }
    particles := []
    stars := []
    clouds := []
    canvasWidth := 800
    canvasHeight := 600
    pendingTimer := false
    finalAltitudeKm := 0
    rand := { rng := fun _ => 0, idx := 0 } }

/-- Value of a single hexadecimal digit, `none` for a non-digit. -/
def hexVal (c : Char) : Option ℕ :=
  if '0' ≤ c ∧ c ≤ '9' then some (c.toNat - '0'.toNat)
  else if 'a' ≤ c ∧ c ≤ 'f' then some (c.toNat - 'a'.toNat + 10)
  else if 'A' ≤ c ∧ c ≤ 'F' then some (c.toNat - 'A'.toNat + 10)
  else none

/-- Accumulate the longest hex-digit run, stopping at the first non-digit. -/
def hexAccum (acc : ℕ) : List Char → ℕ
  | [] => acc
  | c :: cs =>
    match hexVal c with
    | none => acc
    | some d => hexAccum (16 * acc + d) cs

/-- Model of `parseInt(s, 16)`: skip leading whitespace, read an optional sign and
an optional `0x`/`0X` marker, then the longest run of hex digits;
`none` models the `NaN` result when no digit is found. -/
def parseIntHex (l : List Char) : Option ℤ :=
  let l1 := l.dropWhile (fun c => c = ' ' ∨ c = '\t' ∨ c = '\n' ∨ c = '\r')
  let sl : ℤ × List Char :=
    match l1 with
    | '-' :: rest => (-1, rest)
    | '+' :: rest => (1, rest)
    | _ => (1, l1)
  let l2 : List Char :=
    match sl.2 with
    | '0' :: 'x' :: rest => rest
    | '0' :: 'X' :: rest => rest
    | _ => sl.2
  match l2 with
  | [] => none
  | c :: cs =>
    match hexVal c with
    | none => none
    | some d => some (sl.1 * (hexAccum d cs : ℤ))

/-- Model of `Math.round`: round half toward positive infinity,
`Math.round(x) = Math.floor(x + 0.5)`. -/
def jsRound (q : ℚ) : ℤ := jsFloor (q + 1/2)

/-- One interpolated channel as it is printed into the template literal:
`NaN` from an unparsed channel propagates through the arithmetic and
prints as the string `NaN`. -/
def chanStr (a b : Option ℤ) (factor : ℚ) : String :=
  match a, b with
  | some x, some y => toString (jsRound ((x : ℚ) + factor * ((y : ℚ) - x)))
  | _, _ => "NaN"

/-- Function `safeInterpolateColor` (lines 371-395): returns `color1` when either
input lacks the `#` marker or when the RED channel of either input parses
to `NaN` (only `r1`/`r2` are NaN-checked in the source); otherwise blends
each channel and prints `rgb(r, g, b)`. -/
def safeInterpolateColor (color1 color2 : String) (factor : ℚ) : String :=
  if ¬ color1.toList.headD ' ' = '#' ∨ ¬ color2.toList.headD ' ' = '#' then
    color1
  else if parseIntHex ((color1.toList.drop 1).take 2) = none ∨
      parseIntHex ((color2.toList.drop 1).take 2) = none then
    color1
  else
    "rgb(" ++ chanStr (parseIntHex ((color1.toList.drop 1).take 2))
        (parseIntHex ((color2.toList.drop 1).take 2)) factor ++ ", " ++
      chanStr (parseIntHex ((color1.toList.drop 3).take 2))
        (parseIntHex ((color2.toList.drop 3).take 2)) factor ++ ", " ++
      chanStr (parseIntHex ((color1.toList.drop 5).take 2))
        (parseIntHex ((color2.toList.drop 5).take 2)) factor ++ ")"

/-! ### Projection lemmas for the step components -/

@[simp] lemma particlesStep_rocket (s : Sim) : (particlesStep s).rocket = s.rocket := rfl

@[simp] lemma particlesStep_gameState (s : Sim) :
    (particlesStep s).gameState = s.gameState := rfl

@[simp] lemma particlesStep_stars (s : Sim) : (particlesStep s).stars = s.stars := rfl

@[simp] lemma particlesStep_clouds (s : Sim) : (particlesStep s).clouds = s.clouds := rfl

@[simp] lemma particlesStep_canvasHeight (s : Sim) :
    (particlesStep s).canvasHeight = s.canvasHeight := rfl

@[simp] lemma particlesStep_canvasWidth (s : Sim) :
    (particlesStep s).canvasWidth = s.canvasWidth := rfl

@[simp] lemma particlesStep_pendingTimer (s : Sim) :
    (particlesStep s).pendingTimer = s.pendingTimer := rfl

@[simp] lemma starsStep_rocket (s : Sim) : (starsStep s).rocket = s.rocket := rfl

@[simp] lemma starsStep_gameState (s : Sim) : (starsStep s).gameState = s.gameState := rfl

@[simp] lemma starsStep_particles (s : Sim) : (starsStep s).particles = s.particles := rfl

@[simp] lemma starsStep_clouds (s : Sim) : (starsStep s).clouds = s.clouds := rfl

@[simp] lemma starsStep_canvasHeight (s : Sim) :
    (starsStep s).canvasHeight = s.canvasHeight := rfl

@[simp] lemma starsStep_canvasWidth (s : Sim) :
    (starsStep s).canvasWidth = s.canvasWidth := rfl

@[simp] lemma starsStep_pendingTimer (s : Sim) :
    (starsStep s).pendingTimer = s.pendingTimer := rfl

@[simp] lemma cloudsStep_rocket (s : Sim) : (cloudsStep s).rocket = s.rocket := rfl

@[simp] lemma cloudsStep_gameState (s : Sim) :
    (cloudsStep s).gameState = s.gameState := rfl

@[simp] lemma cloudsStep_particles (s : Sim) :
    (cloudsStep s).particles = s.particles := rfl

@[simp] lemma cloudsStep_stars (s : Sim) : (cloudsStep s).stars = s.stars := rfl

@[simp] lemma cloudsStep_canvasHeight (s : Sim) :
    (cloudsStep s).canvasHeight = s.canvasHeight := rfl

@[simp] lemma cloudsStep_canvasWidth (s : Sim) :
    (cloudsStep s).canvasWidth = s.canvasWidth := rfl

@[simp] lemma cloudsStep_pendingTimer (s : Sim) :
    (cloudsStep s).pendingTimer = s.pendingTimer := rfl

@[simp] lemma gravityPhase_gameState (s : Sim) :
    (gravityPhase s).gameState = s.gameState := rfl

@[simp] lemma gravityPhase_heat (s : Sim) :
    (gravityPhase s).rocket.heat = s.rocket.heat := rfl

@[simp] lemma gravityPhase_isBoosting (s : Sim) :
    (gravityPhase s).rocket.isBoosting = s.rocket.isBoosting := rfl

@[simp] lemma gravityPhase_particles (s : Sim) :
    (gravityPhase s).particles = s.particles := rfl

@[simp] lemma gravityPhase_stars (s : Sim) : (gravityPhase s).stars = s.stars := rfl

@[simp] lemma gravityPhase_clouds (s : Sim) : (gravityPhase s).clouds = s.clouds := rfl

@[simp] lemma gravityPhase_canvasHeight (s : Sim) :
    (gravityPhase s).canvasHeight = s.canvasHeight := rfl

@[simp] lemma gravityPhase_vy (s : Sim) :
    (gravityPhase s).rocket.vy = s.rocket.vy + GRAVITY := rfl

@[simp] lemma gravityPhase_y (s : Sim) :
    (gravityPhase s).rocket.y = s.rocket.y + (s.rocket.vy + GRAVITY) := rfl

@[simp] lemma gravityPhase_altitude (s : Sim) :
    (gravityPhase s).rocket.altitude
      = s.rocket.altitude + max 0 (-(s.rocket.vy + GRAVITY)) := rfl

@[simp] lemma gravityPhase_maxAltitude (s : Sim) :
    (gravityPhase s).rocket.maxAltitude
      = max s.rocket.maxAltitude
          (s.rocket.altitude + max 0 (-(s.rocket.vy + GRAVITY))) := rfl

@[simp] lemma groundClamp_gameState (s : Sim) :
    (groundClamp s).gameState = s.gameState := by
  unfold groundClamp; split <;> rfl

@[simp] lemma groundClamp_heat (s : Sim) :
    (groundClamp s).rocket.heat = s.rocket.heat := by
  unfold groundClamp; split <;> rfl

@[simp] lemma groundClamp_isBoosting (s : Sim) :
    (groundClamp s).rocket.isBoosting = s.rocket.isBoosting := by
  unfold groundClamp; split <;> rfl

@[simp] lemma groundClamp_altitude (s : Sim) :
    (groundClamp s).rocket.altitude = s.rocket.altitude := by
  unfold groundClamp; split <;> rfl

@[simp] lemma groundClamp_maxAltitude (s : Sim) :
    (groundClamp s).rocket.maxAltitude = s.rocket.maxAltitude := by
  unfold groundClamp; split <;> rfl

@[simp] lemma groundClamp_particles (s : Sim) :
    (groundClamp s).particles = s.particles := by
  unfold groundClamp; split <;> rfl

@[simp] lemma groundClamp_stars (s : Sim) : (groundClamp s).stars = s.stars := by
  unfold groundClamp; split <;> rfl

@[simp] lemma groundClamp_clouds (s : Sim) : (groundClamp s).clouds = s.clouds := by
  unfold groundClamp; split <;> rfl

@[simp] lemma groundClamp_canvasHeight (s : Sim) :
    (groundClamp s).canvasHeight = s.canvasHeight := by
  unfold groundClamp; split <;> rfl

@[simp] lemma explode_rocket (s : Sim) : (explode s).rocket = s.rocket := rfl

@[simp] lemma explode_gameState (s : Sim) :
    (explode s).gameState = GameState.EXPLODED := rfl

@[simp] lemma explode_stars (s : Sim) : (explode s).stars = s.stars := rfl

@[simp] lemma explode_clouds (s : Sim) : (explode s).clouds = s.clouds := rfl

@[simp] lemma explode_canvasHeight (s : Sim) :
    (explode s).canvasHeight = s.canvasHeight := rfl

lemma explode_particles (s : Sim) :
    (explode s).particles
      = s.particles
        ++ (genList (explodeParticle s.rocket.y s.canvasWidth) 50 s.rand).1 := rfl

@[simp] lemma overheatCheck_rocket (s : Sim) :
    (overheatCheck s).rocket = s.rocket := by
  unfold overheatCheck; split <;> rfl

@[simp] lemma overheatCheck_stars (s : Sim) :
    (overheatCheck s).stars = s.stars := by
  unfold overheatCheck; split <;> rfl

@[simp] lemma overheatCheck_clouds (s : Sim) :
    (overheatCheck s).clouds = s.clouds := by
  unfold overheatCheck; split <;> rfl

@[simp] lemma overheatCheck_canvasHeight (s : Sim) :
    (overheatCheck s).canvasHeight = s.canvasHeight := by
  unfold overheatCheck; split <;> rfl

lemma overheatCheck_of_lt {s : Sim} (h : s.rocket.heat < MAX_HEAT) :
    overheatCheck s = s := by
  unfold overheatCheck; rw [if_neg (not_le.mpr h)]

lemma overheatCheck_of_ge {s : Sim} (h : MAX_HEAT ≤ s.rocket.heat) :
    overheatCheck s = explode s := by
  unfold overheatCheck; rw [if_pos h]

lemma overheatCheck_gameState (s : Sim) :
    (overheatCheck s).gameState
      = if MAX_HEAT ≤ s.rocket.heat then GameState.EXPLODED else s.gameState := by
  unfold overheatCheck; split <;> rfl

lemma boostPhase_gameState (s : Sim) : (boostPhase s).gameState = s.gameState := by
  unfold boostPhase
  split
  · split <;> rfl
  · rfl

lemma boostPhase_stars (s : Sim) : (boostPhase s).stars = s.stars := by
  unfold boostPhase
  split
  · split <;> rfl
  · rfl

lemma boostPhase_clouds (s : Sim) : (boostPhase s).clouds = s.clouds := by
  unfold boostPhase
  split
  · split <;> rfl
  · rfl

lemma boostPhase_canvasHeight (s : Sim) :
    (boostPhase s).canvasHeight = s.canvasHeight := by
  unfold boostPhase
  split
  · split <;> rfl
  · rfl

lemma boostPhase_canvasWidth (s : Sim) :
    (boostPhase s).canvasWidth = s.canvasWidth := by
  unfold boostPhase
  split
  · split <;> rfl
  · rfl

lemma boostPhase_rng (s : Sim) : (boostPhase s).rand.rng = s.rand.rng := by
  unfold boostPhase
  split
  · split <;> rfl
  · rfl

lemma boostPhase_rocket_boosting {s : Sim} (h : s.rocket.isBoosting = true) :
    (boostPhase s).rocket
      = { s.rocket with
            vy := s.rocket.vy - THRUST_POWER
            heat := max 0 (s.rocket.heat + HEAT_UP_RATE) } := by
  unfold boostPhase
  rw [h, if_pos rfl]
  split <;> rfl

lemma boostPhase_rocket_cooling {s : Sim} (h : s.rocket.isBoosting = false) :
    (boostPhase s).rocket
      = { s.rocket with heat := max 0 (s.rocket.heat - COOL_DOWN_RATE) } := by
  unfold boostPhase
  rw [h, if_neg (by simp)]

lemma boostPhase_particles_cooling {s : Sim} (h : s.rocket.isBoosting = false) :
    (boostPhase s).particles = s.particles := by
  unfold boostPhase
  rw [h, if_neg (by simp)]

lemma boostPhase_particles_at_cap {s : Sim} (h : 200 ≤ s.particles.length) :
    (boostPhase s).particles = s.particles := by
  unfold boostPhase
  split
  · rw [if_neg (by omega)]
  · rfl

lemma boostPhase_particles_boosting_free {s : Sim}
    (hb : s.rocket.isBoosting = true) (h : s.particles.length < 200) :
    (boostPhase s).particles
      = s.particles
        ++ [(exhaustParticle s.canvasWidth
              (s.rocket.y) (s.rocket.height)
              (s.rocket.heat + HEAT_UP_RATE) s.rand).1] := by
  unfold boostPhase
  rw [hb, if_pos rfl, if_pos h]

/-! ### Unfolding lemmas for `update` -/

lemma update_playing {s : Sim} (h : s.gameState = GameState.PLAYING) :
    update s = cloudsStep (starsStep (particlesStep (physicsStep s))) := by
  unfold update
  rw [h]
  simp

lemma update_exploded {s : Sim} (h : s.gameState = GameState.EXPLODED) :
    update s = cloudsStep (starsStep (particlesStep s)) := by
  unfold update
  rw [h]
  simp

lemma update_rocket_playing {s : Sim} (h : s.gameState = GameState.PLAYING) :
    (update s).rocket = (physicsStep s).rocket := by
  rw [update_playing h]; simp

lemma update_rocket_exploded {s : Sim} (h : s.gameState = GameState.EXPLODED) :
    (update s).rocket = s.rocket := by
  rw [update_exploded h]; simp

lemma update_gameState_playing {s : Sim} (h : s.gameState = GameState.PLAYING) :
    (update s).gameState = (physicsStep s).gameState := by
  rw [update_playing h]; simp

lemma update_gameState_exploded {s : Sim} (h : s.gameState = GameState.EXPLODED) :
    (update s).gameState = GameState.EXPLODED := by
  rw [update_exploded h]; simp [h]

lemma physicsStep_gameState (s : Sim) :
    (physicsStep s).gameState
      = if MAX_HEAT ≤ (boostPhase s).rocket.heat then GameState.EXPLODED
        else s.gameState := by
  unfold physicsStep
  rw [groundClamp_gameState, gravityPhase_gameState, overheatCheck_gameState,
    boostPhase_gameState]

lemma physicsStep_heat (s : Sim) :
    (physicsStep s).rocket.heat = (boostPhase s).rocket.heat := by
  unfold physicsStep
  rw [groundClamp_heat, gravityPhase_heat]
  rw [overheatCheck_rocket]

lemma physicsStep_isBoosting (s : Sim) :
    (physicsStep s).rocket.isBoosting = s.rocket.isBoosting := by
  unfold physicsStep
  rw [groundClamp_isBoosting, gravityPhase_isBoosting, overheatCheck_rocket]
  unfold boostPhase
  split
  · split <;> rfl
  · rfl

/-! ### Shared helper facts -/

lemma update_inactive {s : Sim} (h1 : ¬s.gameState = GameState.PLAYING)
    (h2 : ¬s.gameState = GameState.EXPLODED) : update s = s := by
  unfold update
  rw [if_neg]
  rintro (h | h) <;> [exact h1 h; exact h2 h]

lemma startGame_rocket (s : Sim) :
    (startGame s).rocket
      = { y := s.canvasHeight * (8/10), vy := 0, altitude := 0,
          maxAltitude := 0, heat := 0, isBoosting := false,
          width := 30, height := 60 } := by
  unfold startGame
  split <;> rfl

lemma startGame_gameState (s : Sim) :
    (startGame s).gameState = GameState.PLAYING := by
  unfold startGame
  split <;> rfl

lemma startGame_particles (s : Sim) : (startGame s).particles = [] := by
  unfold startGame
  split <;> rfl

lemma startGame_pendingTimer (s : Sim) :
    (startGame s).pendingTimer = s.pendingTimer := by
  unfold startGame
  split <;> rfl

lemma boostStart_heat (s : Sim) :
    (boostStart s).rocket.heat = s.rocket.heat := by
  unfold boostStart
  split <;> rfl

lemma boostStart_gameState (s : Sim) :
    (boostStart s).gameState = s.gameState := by
  unfold boostStart
  split <;> rfl

/-! ### C10: update is a no-op in START and FINISHED -/

/-- C10: when `gameState` is START or FINISHED, a call to `update` leaves
the whole simulation state — vessel, particle pool, stars and clouds —
completely unchanged (the function returns the state as-is). -/
theorem update_noop_when_inactive (s : Sim)
    (h : s.gameState = GameState.START ∨ s.gameState = GameState.FINISHED) :
    update s = s := by
  rcases h with h | h <;> exact update_inactive (by simp [h]) (by simp [h])

/-- Witness for C10 at the initial state, whose `gameState` is START. -/
theorem update_noop_when_inactive_witness : update init0 = init0 :=
  update_noop_when_inactive init0 (Or.inl rfl)

/-! ### C4: the stale game-over timer versus restart -/

/-- A state as left by `explode`/`showGameOver`: EXPLODED with the
one-shot FINISHED timer pending. -/
def raceState : Sim :=
  { init0 with gameState := GameState.EXPLODED, pendingTimer := true }

/-- C4 counterexample: restarting while the game-over timer is pending
does not cancel it, and when the stale timer then fires it forces
`gameState` to FINISHED even though the restarted run was PLAYING. -/
theorem staleTimer_forces_finished :
    (startGame raceState).gameState = GameState.PLAYING ∧
    (startGame raceState).pendingTimer = true ∧
    (timerFire (startGame raceState)).gameState = GameState.FINISHED := by
  refine ⟨startGame_gameState raceState, ?_, rfl⟩
  rw [startGame_pendingTimer]
  rfl

/-- C4 amended: the source neither cancels the pending timer on restart
(`startGame` leaves the pending flag untouched) nor guards the timer
callback, which unconditionally sets `gameState` to FINISHED whatever
state the game is in when it fires. -/
theorem staleTimer_unconditional (s : Sim) :
    (timerFire s).gameState = GameState.FINISHED ∧
    (startGame s).pendingTimer = s.pendingTimer :=
  ⟨rfl, startGame_pendingTimer s⟩

/-! ### C2: malformed input handling in safeInterpolateColor -/

lemma chan_0_255_half : chanStr (some 0) (some 255) (1/2) = "128" := by
  show toString (jsRound (((0:ℤ):ℚ) + 1/2 * (((255:ℤ):ℚ) - ((0:ℤ):ℚ)))) = "128"
  have h : jsRound (((0:ℤ):ℚ) + 1/2 * (((255:ℤ):ℚ) - ((0:ℤ):ℚ))) = 128 := by
    unfold jsRound
    have harg : (((0:ℤ):ℚ) + 1/2 * (((255:ℤ):ℚ) - ((0:ℤ):ℚ))) + 1/2
        = ((128:ℤ):ℚ) := by push_cast; norm_num
    rw [harg]
    decide
  rw [h]
  decide

/-- C2 counterexample: a color whose GREEN channel is unparseable slips
past the source's NaN check (which tests only `r1`/`r2`), so the output
is neither the first color nor NaN-free. -/
theorem interpolate_nan_leak :
    safeInterpolateColor "#00zz00" "#ffffff" (1/2) = "rgb(128, NaN, 128)" ∧
    safeInterpolateColor "#00zz00" "#ffffff" (1/2) ≠ "#00zz00" := by
  have e1 : parseIntHex ((("#00zz00").toList.drop 1).take 2) = some 0 := by decide
  have e2 : parseIntHex ((("#ffffff").toList.drop 1).take 2) = some 255 := by decide
  have e3 : parseIntHex ((("#00zz00").toList.drop 3).take 2) = none := by decide
  have e4 : parseIntHex ((("#ffffff").toList.drop 3).take 2) = some 255 := by decide
  have e5 : parseIntHex ((("#00zz00").toList.drop 5).take 2) = some 0 := by decide
  have e6 : parseIntHex ((("#ffffff").toList.drop 5).take 2) = some 255 := by decide
  have hmain : safeInterpolateColor "#00zz00" "#ffffff" (1/2)
      = "rgb(128, NaN, 128)" := by
    unfold safeInterpolateColor
    rw [if_neg (by decide)]
    rw [if_neg (by rw [e1, e2]; rintro (h | h) <;> exact Option.noConfusion h)]
    rw [e1, e2, e3, e4, e5, e6, chan_0_255_half]
    decide
  exact ⟨hmain, by rw [hmain]; decide⟩

/-- C2 amended: `safeInterpolateColor` returns the first color unchanged
when either input lacks the leading `#`, or when the RED channel of
either input is unparseable; failures in the green or blue channels are
not detected (see the counterexample, where NaN reaches the output). -/
theorem interpolate_guard (c1 c2 : String) (f : ℚ) :
    ((¬ c1.toList.headD ' ' = '#' ∨ ¬ c2.toList.headD ' ' = '#') →
      safeInterpolateColor c1 c2 f = c1) ∧
    (parseIntHex ((c1.toList.drop 1).take 2) = none ∨
        parseIntHex ((c2.toList.drop 1).take 2) = none →
      safeInterpolateColor c1 c2 f = c1) := by
  constructor
  · intro h
    unfold safeInterpolateColor
    rw [if_pos h]
  · intro h3
    unfold safeInterpolateColor
    by_cases h12 : ¬ c1.toList.headD ' ' = '#' ∨ ¬ c2.toList.headD ' ' = '#'
    · rw [if_pos h12]
    · rw [if_neg h12, if_pos h3]

/-- Witness for C2 amended: a first argument with no `#` marker comes
back unchanged. -/
theorem interpolate_guard_witness :
    safeInterpolateColor "notacolor" "#ffffff" (1/2) = "notacolor" :=
  (interpolate_guard "notacolor" "#ffffff" (1/2)).1 (by decide)

/-! ### C3: background entities and viewport bounds -/

lemma mapRand_mem {α : Type} (f : α → RState → α × RState) (P : α → Prop)
    (hf : ∀ a r, P (f a r).1) :
    ∀ (l : List α) (r : RState), ∀ b ∈ (mapRand f l r).1, P b := by
  intro l
  induction l with
  | nil => intro r b hb; simp [mapRand] at hb
  | cons a rest ih =>
    intro r b hb
    simp only [mapRand, List.mem_cons] at hb
    rcases hb with hb | hb
    · exact hb ▸ hf a r
    · exact ih _ b hb

@[simp] lemma mapRand_nil {α : Type} (f : α → RState → α × RState)
    (r : RState) : mapRand f [] r = ([], r) := rfl

@[simp] lemma mapRand_cons {α : Type} (f : α → RState → α × RState)
    (a : α) (l : List α) (r : RState) :
    mapRand f (a :: l) r
      = ((f a r).1 :: (mapRand f l (f a r).2).1,
         (mapRand f l (f a r).2).2) := rfl

lemma starsStep_stars_eq (s : Sim) :
    (starsStep s).stars
      = (mapRand (starUpdate s.rocket.vy s.canvasHeight s.canvasWidth)
          s.stars s.rand).1 := rfl

lemma cloudsStep_clouds_eq (s : Sim) :
    (cloudsStep s).clouds
      = (mapRand (cloudUpdate s.rocket.vy s.canvasHeight s.canvasWidth)
          s.clouds s.rand).1 := rfl

lemma starUpdate_y_bound (vy H W : ℚ) (hH : 0 ≤ H) (st : BgEntity)
    (r : RState) :
    -10 ≤ (starUpdate vy H W st r).1.y ∧ (starUpdate vy H W st r).1.y ≤ H := by
  unfold starUpdate
  split
  · exact ⟨by show (-10 : ℚ) ≤ -10; norm_num, by show (-10 : ℚ) ≤ H; linarith⟩
  · split
    · next h1 h2 =>
      exact ⟨by show (-10 : ℚ) ≤ H; linarith, by show H ≤ H; exact le_refl H⟩
    · next h1 h2 => exact ⟨le_of_not_lt h2, le_of_not_lt h1⟩

lemma cloudUpdate_y_bound (vy H W : ℚ) (hH : 0 ≤ H) (c : BgEntity)
    (r : RState) :
    (cloudUpdate vy H W c r).1.y ≤ H := by
  unfold cloudUpdate
  split
  · show (-100 : ℚ) ≤ H
    linarith
  · next h1 => exact le_of_not_lt h1

lemma starsStep_y_bound (t : Sim) (hH : 0 ≤ t.canvasHeight) :
    ∀ st ∈ (starsStep t).stars, -10 ≤ st.y ∧ st.y ≤ t.canvasHeight := by
  intro st hst
  exact mapRand_mem _ (fun b => -10 ≤ b.y ∧ b.y ≤ t.canvasHeight)
    (fun a r => starUpdate_y_bound t.rocket.vy t.canvasHeight t.canvasWidth hH a r)
    t.stars t.rand st hst

lemma cloudsStep_y_bound (t : Sim) (hH : 0 ≤ t.canvasHeight) :
    ∀ c ∈ (cloudsStep t).clouds, c.y ≤ t.canvasHeight := by
  intro c hc
  exact mapRand_mem _ (fun b => b.y ≤ t.canvasHeight)
    (fun a r => cloudUpdate_y_bound t.rocket.vy t.canvasHeight t.canvasWidth hH a r)
    t.clouds t.rand c hc

lemma physicsStep_canvasHeight (s : Sim) :
    (physicsStep s).canvasHeight = s.canvasHeight := by
  unfold physicsStep
  rw [groundClamp_canvasHeight, gravityPhase_canvasHeight,
    overheatCheck_canvasHeight, boostPhase_canvasHeight]

/-- A tick state whose single cloud is carried out above the top of the
viewport by a fast-ascending vessel. -/
def cloudEscState : Sim :=
  { init0 with
      gameState := GameState.EXPLODED
      rocket := { init0.rocket with vy := -100, y := 100 }
      clouds := [{ x := 100, y := 10, size := 50, speed := 1/2 }] }

/-- C3 counterexample: a cloud exiting the viewport through the TOP is
not repositioned within the tick — after `update` it sits at
`y = -139/2`, entirely above the viewport (`y + size < 0`), with its
horizontal position untouched.  The wrap branch for clouds exists only
for the bottom edge. -/
theorem cloud_not_wrapped_at_top :
    (update cloudEscState).clouds
      = [{ x := 100, y := -139/2, size := 50, speed := 1/2 }] ∧
    (-139/2 : ℚ) + 50 < 0 := by
  constructor
  · rw [update_exploded rfl, cloudsStep_clouds_eq]
    rw [show (starsStep (particlesStep cloudEscState)).clouds
        = cloudEscState.clouds from rfl]
    rw [show cloudEscState.clouds
        = [{ x := 100, y := 10, size := 50, speed := 1/2 }] from rfl]
    rw [mapRand_cons, mapRand_nil]
    unfold cloudUpdate
    norm_num [cloudEscState, init0]
  · norm_num

/-- C3 amended: on every active tick, each star is wrapped the moment it
leaves the viewport in either direction, so after `update` every star
satisfies `-10 ≤ y ≤ height`; clouds are wrapped only when they exit
through the bottom (`y > height`), so after `update` every cloud merely
satisfies `y ≤ height` — a cloud that exits through the top stays outside
the viewport (see the counterexample). -/
theorem background_wrap_amended (s : Sim)
    (hgs : s.gameState = GameState.PLAYING ∨ s.gameState = GameState.EXPLODED)
    (hH : 0 ≤ s.canvasHeight) :
    (∀ st ∈ (update s).stars, -10 ≤ st.y ∧ st.y ≤ s.canvasHeight) ∧
    (∀ c ∈ (update s).clouds, c.y ≤ s.canvasHeight) := by
  rcases hgs with h | h
  · rw [update_playing h]
    constructor
    · intro st hst
      rw [cloudsStep_stars] at hst
      have hb := starsStep_y_bound (particlesStep (physicsStep s))
        (by rw [particlesStep_canvasHeight, physicsStep_canvasHeight]; exact hH)
        st hst
      rwa [particlesStep_canvasHeight, physicsStep_canvasHeight] at hb
    · intro c hc
      have hb := cloudsStep_y_bound (starsStep (particlesStep (physicsStep s)))
        (by rw [starsStep_canvasHeight, particlesStep_canvasHeight,
          physicsStep_canvasHeight]; exact hH) c hc
      rwa [starsStep_canvasHeight, particlesStep_canvasHeight,
        physicsStep_canvasHeight] at hb
  · rw [update_exploded h]
    constructor
    · intro st hst
      rw [cloudsStep_stars] at hst
      have hb := starsStep_y_bound (particlesStep s)
        (by rw [particlesStep_canvasHeight]; exact hH) st hst
      rwa [particlesStep_canvasHeight] at hb
    · intro c hc
      have hb := cloudsStep_y_bound (starsStep (particlesStep s))
        (by rw [starsStep_canvasHeight, particlesStep_canvasHeight]; exact hH)
        c hc
      rwa [starsStep_canvasHeight, particlesStep_canvasHeight] at hb

/-- A small active state used to instantiate the amended C3 theorem. -/
def wrapSampleState : Sim :=
  { init0 with
      gameState := GameState.EXPLODED
      stars := [{ x := 0, y := 0, size := 1, speed := 1 }]
      clouds := [{ x := 0, y := 0, size := 60, speed := 1 }] }

/-- Witness for C3 amended at a concrete one-star, one-cloud state. -/
theorem background_wrap_amended_witness :
    -10 ≤ (1 : ℚ) ∧ (1 : ℚ) ≤ wrapSampleState.canvasHeight := by
  have h := background_wrap_amended wrapSampleState (Or.inr rfl) (by norm_num [wrapSampleState, init0])
  have hm : ({ x := 0, y := 1, size := 1, speed := 1 } : BgEntity)
      ∈ (update wrapSampleState).stars := by
    rw [update_exploded rfl, cloudsStep_stars, starsStep_stars_eq]
    rw [show (particlesStep wrapSampleState).stars
        = [{ x := 0, y := 0, size := 1, speed := 1 }] from rfl]
    rw [mapRand_cons, mapRand_nil]
    unfold starUpdate
    norm_num [wrapSampleState, init0]
  simpa using h.1 _ hm

/-! ### C1: heat bounds -/

lemma MAX_HEAT_eq : MAX_HEAT = 100 := rfl

lemma HEAT_UP_RATE_eq : HEAT_UP_RATE = 3/2 := rfl

lemma COOL_DOWN_RATE_eq : COOL_DOWN_RATE = 4/5 := rfl

lemma boostPhase_heat_boosting {s : Sim} (hB : s.rocket.isBoosting = true) :
    (boostPhase s).rocket.heat = max 0 (s.rocket.heat + HEAT_UP_RATE) := by
  rw [boostPhase_rocket_boosting hB]

lemma boostPhase_heat_cooling {s : Sim} (hB : s.rocket.isBoosting = false) :
    (boostPhase s).rocket.heat = max 0 (s.rocket.heat - COOL_DOWN_RATE) := by
  rw [boostPhase_rocket_cooling hB]

/-- Net effect of one PLAYING tick with the boost held, on heat, the
boost flag and the game state. -/
lemma update_boost_step {s : Sim} (hP : s.gameState = GameState.PLAYING)
    (hB : s.rocket.isBoosting = true) (h0 : 0 ≤ s.rocket.heat) :
    (update s).rocket.heat = s.rocket.heat + HEAT_UP_RATE ∧
    (update s).rocket.isBoosting = true ∧
    (update s).gameState
      = if MAX_HEAT ≤ s.rocket.heat + HEAT_UP_RATE then GameState.EXPLODED
        else GameState.PLAYING := by
  have hrate : (0 : ℚ) ≤ HEAT_UP_RATE := by rw [HEAT_UP_RATE_eq]; norm_num
  have hbp : (boostPhase s).rocket.heat = s.rocket.heat + HEAT_UP_RATE := by
    rw [boostPhase_heat_boosting hB]
    exact max_eq_right (by linarith)
  refine ⟨?_, ?_, ?_⟩
  · rw [update_rocket_playing hP, physicsStep_heat, hbp]
  · rw [update_rocket_playing hP, physicsStep_isBoosting, hB]
  · rw [update_gameState_playing hP, physicsStep_gameState, hbp, hP]

/-- The canonical run: start from the initial state, press boost, tick. -/
def runState (k : ℕ) : Sim := ticks k (boostStart (startGame init0))

lemma runState_boost_props :
    ∀ k : ℕ, k ≤ 66 →
      (runState k).gameState = GameState.PLAYING ∧
      (runState k).rocket.isBoosting = true ∧
      (runState k).rocket.heat = (3/2) * k := by
  intro k
  induction k with
  | zero =>
    intro _
    refine ⟨rfl, rfl, ?_⟩
    show (0 : ℚ) = (3/2) * ((0 : ℕ) : ℚ)
    norm_num
  | succ k ih =>
    intro hk
    obtain ⟨hP, hB, hh⟩ := ih (Nat.le_of_succ_le hk)
    have h0 : 0 ≤ (runState k).rocket.heat := by rw [hh]; positivity
    have hstep := update_boost_step hP hB h0
    have hru : runState (k + 1) = update (runState k) := rfl
    have hkq : ((k : ℚ) + 1) ≤ 66 := by exact_mod_cast hk
    have hlt : ¬ MAX_HEAT ≤ (runState k).rocket.heat + HEAT_UP_RATE := by
      rw [hh, MAX_HEAT_eq, HEAT_UP_RATE_eq]
      push_neg
      linarith
    refine ⟨?_, ?_, ?_⟩
    · rw [hru, hstep.2.2, if_neg hlt]
    · rw [hru]; exact hstep.2.1
    · rw [hru, hstep.1, hh, HEAT_UP_RATE_eq]
      push_cast
      ring

/-- C1 counterexample: from a fresh start, hold boost for 67 ticks.  On
the 67th (overheat) tick the state becomes EXPLODED and the heat is
100.5, strictly above `MAX_HEAT = 100` — the source only clamps heat from
below (line 202), never to the upper bound. -/
theorem heat_exceeds_max_on_explosion_tick :
    (ticks 67 (boostStart (startGame init0))).rocket.heat = 201/2 ∧
    MAX_HEAT < (ticks 67 (boostStart (startGame init0))).rocket.heat ∧
    (ticks 67 (boostStart (startGame init0))).gameState
      = GameState.EXPLODED := by
  obtain ⟨hP, hB, hh⟩ := runState_boost_props 66 (le_refl 66)
  have h0 : 0 ≤ (runState 66).rocket.heat := by rw [hh]; positivity
  have hstep := update_boost_step hP hB h0
  have h67 : ticks 67 (boostStart (startGame init0)) = update (runState 66) :=
    rfl
  have hge : MAX_HEAT ≤ (runState 66).rocket.heat + HEAT_UP_RATE := by
    rw [hh, MAX_HEAT_eq, HEAT_UP_RATE_eq]
    push_cast
    norm_num
  refine ⟨?_, ?_, ?_⟩
  · rw [h67, hstep.1, hh, HEAT_UP_RATE_eq]
    push_cast
    norm_num
  · rw [h67, hstep.1, hh, MAX_HEAT_eq, HEAT_UP_RATE_eq]
    push_cast
    norm_num
  · rw [h67, hstep.2.2, if_pos hge]

/-- The heat bounds that actually hold: heat is never negative, stays
strictly below `MAX_HEAT` while PLAYING, and is always strictly below
`MAX_HEAT + HEAT_UP_RATE` (it can end in `[100, 101.5)` in the EXPLODED
and FINISHED states after an overheat tick). -/
def HeatInv (s : Sim) : Prop :=
  0 ≤ s.rocket.heat ∧ s.rocket.heat < MAX_HEAT + HEAT_UP_RATE ∧
    (s.gameState = GameState.PLAYING → s.rocket.heat < MAX_HEAT)

/-- C1 amended: `HeatInv` — nonnegative heat, heat < 100 while PLAYING,
heat < 100 + 1.5 in every state — is preserved by every event of the
system: a tick, a start/restart command, both boost signals, and the
game-over timer.  Heat CAN exceed 100 (by less than `HEAT_UP_RATE`) in
the EXPLODED/FINISHED states, per the counterexample. -/
theorem heat_bounds_amended (s : Sim) (h : HeatInv s) :
    HeatInv (update s) ∧ HeatInv (startGame s) ∧ HeatInv (boostStart s) ∧
    HeatInv (boostEnd s) ∧ HeatInv (timerFire s) := by
  obtain ⟨h1, h2, h3⟩ := h
  have hsg_heat : (startGame s).rocket.heat = 0 := by rw [startGame_rocket]
  refine ⟨?_, ?_, ?_, ?_, ?_⟩
  · -- the tick
    cases hgs : s.gameState with
    | START =>
      rw [update_inactive (by rw [hgs]; simp) (by rw [hgs]; simp)]
      exact ⟨h1, h2, h3⟩
    | FINISHED =>
      rw [update_inactive (by rw [hgs]; simp) (by rw [hgs]; simp)]
      exact ⟨h1, h2, h3⟩
    | EXPLODED =>
      refine ⟨?_, ?_, ?_⟩
      · rw [update_rocket_exploded hgs]; exact h1
      · rw [update_rocket_exploded hgs]; exact h2
      · intro hpl
        rw [update_gameState_exploded hgs] at hpl
        exact absurd hpl (by simp)
    | PLAYING =>
      have hheq : (update s).rocket.heat = (boostPhase s).rocket.heat := by
        rw [update_rocket_playing hgs, physicsStep_heat]
      have hgeq : (update s).gameState
          = if MAX_HEAT ≤ (boostPhase s).rocket.heat then GameState.EXPLODED
            else GameState.PLAYING := by
        rw [update_gameState_playing hgs, physicsStep_gameState, hgs]
      have hP100 : s.rocket.heat < MAX_HEAT := h3 hgs
      have hbp_nonneg : 0 ≤ (boostPhase s).rocket.heat := by
        cases hB : s.rocket.isBoosting
        · rw [boostPhase_heat_cooling hB]; exact le_max_left 0 _
        · rw [boostPhase_heat_boosting hB]; exact le_max_left 0 _
      have hbp_lt : (boostPhase s).rocket.heat < MAX_HEAT + HEAT_UP_RATE := by
        cases hB : s.rocket.isBoosting
        · rw [boostPhase_heat_cooling hB]
          apply max_lt
          · rw [MAX_HEAT_eq, HEAT_UP_RATE_eq]; norm_num
          · rw [COOL_DOWN_RATE_eq, MAX_HEAT_eq, HEAT_UP_RATE_eq]
            rw [MAX_HEAT_eq] at hP100
            linarith
        · rw [boostPhase_heat_boosting hB]
          apply max_lt
          · rw [MAX_HEAT_eq, HEAT_UP_RATE_eq]; norm_num
          · linarith
      refine ⟨?_, ?_, ?_⟩
      · rw [hheq]; exact hbp_nonneg
      · rw [hheq]; exact hbp_lt
      · intro hpl
        rw [hgeq] at hpl
        rw [hheq]
        by_cases hov : MAX_HEAT ≤ (boostPhase s).rocket.heat
        · rw [if_pos hov] at hpl
          exact absurd hpl (by simp)
        · exact not_le.mp hov
  · -- startGame
    refine ⟨?_, ?_, fun _ => ?_⟩ <;> rw [hsg_heat] <;>
      norm_num [MAX_HEAT_eq, HEAT_UP_RATE_eq]
  · -- boostStart
    refine ⟨?_, ?_, ?_⟩
    · rw [boostStart_heat]; exact h1
    · rw [boostStart_heat]; exact h2
    · intro hpl
      rw [boostStart_gameState] at hpl
      rw [boostStart_heat]
      exact h3 hpl
  · -- boostEnd
    exact ⟨h1, h2, fun hpl => h3 hpl⟩
  · -- timerFire
    refine ⟨h1, h2, ?_⟩
    intro hpl
    exact absurd hpl (by simp [timerFire])

/-- Witness for C1 amended: the invariant holds after a fresh start and
is propagated through one tick and one boost press. -/
theorem heat_bounds_amended_witness :
    HeatInv (update (startGame init0)) ∧
    HeatInv (boostStart (startGame init0)) := by
  have h0 : (startGame init0).rocket.heat = 0 := by rw [startGame_rocket]
  have hinv : HeatInv (startGame init0) := by
    refine ⟨?_, ?_, fun _ => ?_⟩ <;> rw [h0] <;>
      norm_num [MAX_HEAT_eq, HEAT_UP_RATE_eq]
  have h := heat_bounds_amended (startGame init0) hinv
  exact ⟨h.1, h.2.2.1⟩

/-! ### C7: altitude bookkeeping -/

lemma GRAVITY_eq : GRAVITY = 3/20 := rfl

lemma boostPhase_altitude (s : Sim) :
    (boostPhase s).rocket.altitude = s.rocket.altitude := by
  unfold boostPhase
  split
  · split <;> rfl
  · rfl

lemma boostPhase_maxAltitude (s : Sim) :
    (boostPhase s).rocket.maxAltitude = s.rocket.maxAltitude := by
  unfold boostPhase
  split
  · split <;> rfl
  · rfl

lemma physicsStep_altitude (s : Sim) :
    (physicsStep s).rocket.altitude
      = s.rocket.altitude
          + max 0 (-((boostPhase s).rocket.vy + GRAVITY)) := by
  unfold physicsStep
  rw [groundClamp_altitude, gravityPhase_altitude, overheatCheck_rocket,
    boostPhase_altitude]

lemma physicsStep_maxAltitude (s : Sim) :
    (physicsStep s).rocket.maxAltitude
      = max s.rocket.maxAltitude
          (s.rocket.altitude
            + max 0 (-((boostPhase s).rocket.vy + GRAVITY))) := by
  unfold physicsStep
  rw [groundClamp_maxAltitude, gravityPhase_maxAltitude, overheatCheck_rocket,
    boostPhase_maxAltitude, boostPhase_altitude]

/-- The altitude invariant: both accumulators nonnegative and the peak
dominating the current value. -/
def AltInv (s : Sim) : Prop :=
  0 ≤ s.rocket.altitude ∧ 0 ≤ s.rocket.maxAltitude ∧
    s.rocket.altitude ≤ s.rocket.maxAltitude

/-- C7: across every tick, `altitude` and `maxAltitude` are
non-decreasing, `altitude` never exceeds `maxAltitude`, and both remain
nonnegative (altitude grows by `max 0 (-vy)`, the peak by `max` with the
new altitude). -/
theorem altitude_bookkeeping (s : Sim) (h : AltInv s) :
    AltInv (update s) ∧
    s.rocket.altitude ≤ (update s).rocket.altitude ∧
    s.rocket.maxAltitude ≤ (update s).rocket.maxAltitude := by
  obtain ⟨ha, hm, ham⟩ := h
  cases hgs : s.gameState with
  | START =>
    rw [update_inactive (by rw [hgs]; simp) (by rw [hgs]; simp)]
    exact ⟨⟨ha, hm, ham⟩, le_refl _, le_refl _⟩
  | FINISHED =>
    rw [update_inactive (by rw [hgs]; simp) (by rw [hgs]; simp)]
    exact ⟨⟨ha, hm, ham⟩, le_refl _, le_refl _⟩
  | EXPLODED =>
    refine ⟨⟨?_, ?_, ?_⟩, ?_, ?_⟩ <;> rw [update_rocket_exploded hgs]
    exacts [ha, hm, ham]
  | PLAYING =>
    have halt : (update s).rocket.altitude
        = s.rocket.altitude
            + max 0 (-((boostPhase s).rocket.vy + GRAVITY)) := by
      rw [update_rocket_playing hgs, physicsStep_altitude]
    have hmax : (update s).rocket.maxAltitude
        = max s.rocket.maxAltitude
            (s.rocket.altitude
              + max 0 (-((boostPhase s).rocket.vy + GRAVITY))) := by
      rw [update_rocket_playing hgs, physicsStep_maxAltitude]
    have hnn : 0 ≤ max 0 (-((boostPhase s).rocket.vy + GRAVITY)) :=
      le_max_left 0 _
    refine ⟨⟨?_, ?_, ?_⟩, ?_, ?_⟩
    · rw [halt]; linarith
    · rw [hmax]; exact le_trans hm (le_max_left _ _)
    · rw [halt, hmax]; exact le_max_right _ _
    · rw [halt]; linarith
    · rw [hmax]; exact le_max_left _ _

/-- Witness for C7 at the freshly reset state. -/
theorem altitude_bookkeeping_witness :
    AltInv (update (startGame init0)) ∧
    (startGame init0).rocket.altitude
      ≤ (update (startGame init0)).rocket.altitude ∧
    (startGame init0).rocket.maxAltitude
      ≤ (update (startGame init0)).rocket.maxAltitude := by
  have h0 : (startGame init0).rocket.altitude = 0 := by rw [startGame_rocket]
  have h1 : (startGame init0).rocket.maxAltitude = 0 := by rw [startGame_rocket]
  exact altitude_bookkeeping (startGame init0)
    ⟨by rw [h0], by rw [h1], by rw [h0, h1]⟩

/-! ### C8: the ground line -/

/-- C8: after every PLAYING tick the vessel's y never exceeds the ground
line at 80% of the viewport height, and on any tick where integration
carries it past the line, the position is clamped to the line and the
vertical velocity zeroed in that same tick. -/
theorem ground_clamp_holds (s : Sim) (hP : s.gameState = GameState.PLAYING) :
    (update s).rocket.y ≤ s.canvasHeight * (8/10) ∧
    (s.canvasHeight * (8/10)
        < (gravityPhase (overheatCheck (boostPhase s))).rocket.y →
      (update s).rocket.y = s.canvasHeight * (8/10) ∧
        (update s).rocket.vy = 0) := by
  have hch : (gravityPhase (overheatCheck (boostPhase s))).canvasHeight
      = s.canvasHeight := by
    rw [gravityPhase_canvasHeight, overheatCheck_canvasHeight,
      boostPhase_canvasHeight]
  have hry : (update s).rocket
      = (groundClamp (gravityPhase (overheatCheck (boostPhase s)))).rocket := by
    rw [update_rocket_playing hP]; rfl
  rw [hry]
  unfold groundClamp
  rw [hch]
  split
  · next hgt => exact ⟨le_refl _, fun _ => ⟨rfl, rfl⟩⟩
  · next hle => exact ⟨le_of_not_lt hle, fun hcon => absurd hcon hle⟩

/-- A PLAYING state whose vessel sits far below the ground line. -/
def groundSampleState : Sim :=
  { init0 with
      gameState := GameState.PLAYING
      rocket := { init0.rocket with y := 1000 } }

/-- Witness for C8: with the vessel at y = 1000 (below the 480 ground
line of a 600-high viewport), the tick clamps y to the line and zeroes
the velocity. -/
theorem ground_clamp_holds_witness :
    (update groundSampleState).rocket.y
      = groundSampleState.canvasHeight * (8/10) ∧
    (update groundSampleState).rocket.vy = 0 := by
  have h1 : (boostPhase groundSampleState).rocket
      = { groundSampleState.rocket with
            heat := max 0 (groundSampleState.rocket.heat - COOL_DOWN_RATE) } :=
    boostPhase_rocket_cooling rfl
  have h2 : overheatCheck (boostPhase groundSampleState)
      = boostPhase groundSampleState := by
    apply overheatCheck_of_lt
    rw [h1]
    show max 0 (groundSampleState.rocket.heat - COOL_DOWN_RATE) < MAX_HEAT
    rw [show groundSampleState.rocket.heat = 0 from rfl, COOL_DOWN_RATE_eq,
      MAX_HEAT_eq]
    rw [max_lt_iff]
    norm_num
  have hy : (gravityPhase (overheatCheck (boostPhase groundSampleState))).rocket.y
      = 1000 + (0 + GRAVITY) := by
    rw [h2, gravityPhase_y, h1]
    rfl
  have hpre : groundSampleState.canvasHeight * (8/10)
      < (gravityPhase (overheatCheck (boostPhase groundSampleState))).rocket.y := by
    rw [hy, show groundSampleState.canvasHeight = 600 from rfl, GRAVITY_eq]
    norm_num
  exact (ground_clamp_holds groundSampleState rfl).2 hpre

/-! ### C6: the exhaust-particle cap -/

lemma particlesStep_length_le (s : Sim) :
    (particlesStep s).particles.length ≤ s.particles.length := by
  show ((s.particles.map particleTick).filter _).length ≤ s.particles.length
  calc ((s.particles.map particleTick).filter
          (fun p => !(decide (p.life ≤ 0 ∨ s.canvasHeight + 50 < p.y)))).length
      ≤ (s.particles.map particleTick).length := List.length_filter_le _ _
    _ = s.particles.length := List.length_map _ _

lemma physicsStep_particles_of_lt {s : Sim}
    (h : (boostPhase s).rocket.heat < MAX_HEAT) :
    (physicsStep s).particles = (boostPhase s).particles := by
  unfold physicsStep
  rw [groundClamp_particles, gravityPhase_particles, overheatCheck_of_lt h]

/-- C6: while PLAYING and boosting, an exhaust particle is pushed exactly
when the pool currently holds fewer than 200 particles (at the cap the
pool is returned untouched), so the boost phase keeps any pool of at most
200 at most 200, and a full explosion-free tick does too (the particle
pass afterwards only removes). -/
theorem exhaust_cap (s : Sim) (hP : s.gameState = GameState.PLAYING)
    (hB : s.rocket.isBoosting = true) :
    ((boostPhase s).particles.length
        = if s.particles.length < 200 then s.particles.length + 1
          else s.particles.length) ∧
    (s.particles.length ≤ 200 → (boostPhase s).particles.length ≤ 200) ∧
    (s.particles.length ≤ 200 → (boostPhase s).rocket.heat < MAX_HEAT →
      (update s).particles.length ≤ 200) := by
  have hlen : (boostPhase s).particles.length
      = if s.particles.length < 200 then s.particles.length + 1
        else s.particles.length := by
    by_cases hc : s.particles.length < 200
    · rw [if_pos hc, boostPhase_particles_boosting_free hB hc,
        List.length_append]
      rfl
    · rw [if_neg hc, boostPhase_particles_at_cap (le_of_not_lt hc)]
  have hcap : s.particles.length ≤ 200 →
      (boostPhase s).particles.length ≤ 200 := by
    intro hle
    rw [hlen]
    by_cases hc : s.particles.length < 200
    · rw [if_pos hc]; omega
    · rw [if_neg hc]; omega
  refine ⟨hlen, hcap, ?_⟩
  intro hle hheat
  have h1 : (update s).particles = (particlesStep (physicsStep s)).particles := by
    rw [update_playing hP, cloudsStep_particles, starsStep_particles]
  rw [h1]
  calc (particlesStep (physicsStep s)).particles.length
      ≤ (physicsStep s).particles.length := particlesStep_length_le _
    _ = (boostPhase s).particles.length := by
        rw [physicsStep_particles_of_lt hheat]
    _ ≤ 200 := hcap hle

/-- A boosting PLAYING state with an empty pool. -/
def exhaustSampleState : Sim :=
  { init0 with
      gameState := GameState.PLAYING
      rocket := { init0.rocket with isBoosting := true } }

/-- Witness for C6: from an empty pool, the boosting tick creates exactly
one exhaust particle and the full tick stays at or under the cap. -/
theorem exhaust_cap_witness :
    (boostPhase exhaustSampleState).particles.length = 1 ∧
    (update exhaustSampleState).particles.length ≤ 200 := by
  have h := exhaust_cap exhaustSampleState rfl rfl
  have hheat : (boostPhase exhaustSampleState).rocket.heat < MAX_HEAT := by
    rw [boostPhase_heat_boosting rfl,
      show exhaustSampleState.rocket.heat = 0 from rfl, MAX_HEAT_eq,
      HEAT_UP_RATE_eq, max_lt_iff]
    norm_num
  constructor
  · have h1 := h.1
    rw [show exhaustSampleState.particles.length = 0 from rfl] at h1
    rw [if_pos (by norm_num)] at h1
    exact h1
  · exact h.2.2 (by rw [show exhaustSampleState.particles.length = 0 from rfl]; omega)
      hheat

/-! ### C5: the explosion burst -/

lemma genList_length {α : Type} (f : RState → α × RState) :
    ∀ (n : ℕ) (r : RState), (genList f n r).1.length = n := by
  intro n
  induction n with
  | zero => intro r; rfl
  | succ n ih => intro r; simp only [genList, List.length_cons, ih]

lemma boostPhase_rocket_y (s : Sim) :
    (boostPhase s).rocket.y = s.rocket.y := by
  unfold boostPhase
  split
  · split <;> rfl
  · rfl

lemma genExplosion_mem (y W : ℚ) :
    ∀ (n : ℕ) (r : RState), r.Bounded →
      ∀ p ∈ (genList (explodeParticle y W) n r).1,
        p.life = 1 ∧ p.color = "#FF3D00" ∧ p.x = W / 2 ∧ p.y = y ∧
        -(15/2) ≤ p.vx ∧ p.vx ≤ 15/2 ∧ -(15/2) ≤ p.vy ∧ p.vy ≤ 15/2 ∧
        5 ≤ p.size ∧ p.size < 15 := by
  intro n
  induction n with
  | zero => intro r _ p hp; simp [genList] at hp
  | succ n ih =>
    intro r hr p hp
    simp only [genList, List.mem_cons] at hp
    rcases hp with hp | hp
    · subst hp
      obtain ⟨h1a, h1b⟩ := hr r.idx
      obtain ⟨h2a, h2b⟩ := hr (r.idx + 1)
      obtain ⟨h3a, h3b⟩ := hr (r.idx + 2)
      refine ⟨rfl, rfl, rfl, rfl, ?_, ?_, ?_, ?_, ?_, ?_⟩
      · show -(15/2 : ℚ) ≤ (r.rng r.idx - 1/2) * 15
        linarith
      · show (r.rng r.idx - 1/2) * 15 ≤ 15/2
        linarith
      · show -(15/2 : ℚ) ≤ (r.rng (r.idx + 1) - 1/2) * 15
        linarith
      · show (r.rng (r.idx + 1) - 1/2) * 15 ≤ 15/2
        linarith
      · show (5 : ℚ) ≤ r.rng (r.idx + 2) * 10 + 5
        linarith
      · show r.rng (r.idx + 2) * 10 + 5 < 15
        linarith
    · exact ih (explodeParticle y W r).2 (fun m => hr m) p hp

/-- C5: on a PLAYING tick whose heat at the overheat check is at least
`MAX_HEAT`, the tick ends in the EXPLODED state having appended exactly
50 particles at that instant, each at the vessel's position
(x = width/2, y = rocket.y), with life 1.0, the fixed explosion color,
velocity components in [-7.5, 7.5] on each axis and randomized size in
[5, 15). -/
theorem explosion_on_overheat (s : Sim)
    (hP : s.gameState = GameState.PLAYING)
    (hr : s.rand.Bounded)
    (hheat : MAX_HEAT ≤ (boostPhase s).rocket.heat) :
    (update s).gameState = GameState.EXPLODED ∧
    (overheatCheck (boostPhase s)).particles.length
      = (boostPhase s).particles.length + 50 ∧
    ∀ p ∈ (overheatCheck (boostPhase s)).particles.drop
        (boostPhase s).particles.length,
      p.life = 1 ∧ p.color = "#FF3D00" ∧ p.x = s.canvasWidth / 2 ∧
      p.y = s.rocket.y ∧
      -(15/2) ≤ p.vx ∧ p.vx ≤ 15/2 ∧ -(15/2) ≤ p.vy ∧ p.vy ≤ 15/2 ∧
      5 ≤ p.size ∧ p.size < 15 := by
  have hbr : (boostPhase s).rand.Bounded := by
    intro m
    rw [boostPhase_rng]
    exact hr m
  have hparts : (overheatCheck (boostPhase s)).particles
      = (boostPhase s).particles
        ++ (genList (explodeParticle s.rocket.y s.canvasWidth) 50
            (boostPhase s).rand).1 := by
    rw [overheatCheck_of_ge hheat, explode_particles, boostPhase_rocket_y,
      boostPhase_canvasWidth]
  refine ⟨?_, ?_, ?_⟩
  · rw [update_gameState_playing hP, physicsStep_gameState, if_pos hheat]
  · rw [hparts, List.length_append, genList_length]
  · intro p hp
    rw [hparts, List.drop_left] at hp
    exact genExplosion_mem s.rocket.y s.canvasWidth 50 (boostPhase s).rand
      hbr p hp

/-- A boosting PLAYING state one heat-increment away from overheat, with
a concrete half-stream oracle. -/
def explodeSampleState : Sim :=
  { init0 with
      gameState := GameState.PLAYING
      rocket := { init0.rocket with isBoosting := true, heat := 999/10 }
      rand := { rng := fun _ => 1/2, idx := 0 } }

/-- Witness for C5: the sample state explodes on this tick and gains
exactly 50 particles at the overheat check. -/
theorem explosion_on_overheat_witness :
    (update explodeSampleState).gameState = GameState.EXPLODED ∧
    (overheatCheck (boostPhase explodeSampleState)).particles.length
      = (boostPhase explodeSampleState).particles.length + 50 := by
  have hr : explodeSampleState.rand.Bounded := by
    intro n
    constructor
    · show (0 : ℚ) ≤ 1/2
      norm_num
    · show (1/2 : ℚ) < 1
      norm_num
  have hheat : MAX_HEAT ≤ (boostPhase explodeSampleState).rocket.heat := by
    rw [boostPhase_heat_boosting rfl,
      show explodeSampleState.rocket.heat = 999/10 from rfl, MAX_HEAT_eq,
      HEAT_UP_RATE_eq, max_eq_right (by norm_num : (0:ℚ) ≤ 999/10 + 3/2)]
    norm_num
  have h := explosion_on_overheat explodeSampleState rfl hr hheat
  exact ⟨h.1, h.2.1⟩

/-! ### C9: the start/restart reset -/

lemma initBackground_stars (s : Sim) :
    (initBackground s).stars
      = (genList (mkStar s.canvasWidth s.canvasHeight) 100 s.rand).1 := rfl

lemma initBackground_clouds (s : Sim) :
    (initBackground s).clouds
      = (genList (mkCloud s.canvasWidth s.canvasHeight) 5
          (genList (mkStar s.canvasWidth s.canvasHeight) 100 s.rand).2).1 := rfl

lemma mapRand_length {α : Type} (f : α → RState → α × RState) :
    ∀ (l : List α) (r : RState), (mapRand f l r).1.length = l.length := by
  intro l
  induction l with
  | nil => intro r; rfl
  | cons a rest ih => intro r; simp only [mapRand, List.length_cons, ih]

lemma physicsStep_stars (s : Sim) : (physicsStep s).stars = s.stars := by
  unfold physicsStep
  rw [groundClamp_stars, gravityPhase_stars, overheatCheck_stars,
    boostPhase_stars]

lemma physicsStep_clouds (s : Sim) : (physicsStep s).clouds = s.clouds := by
  unfold physicsStep
  rw [groundClamp_clouds, gravityPhase_clouds, overheatCheck_clouds,
    boostPhase_clouds]

lemma update_stars_length (s : Sim) :
    (update s).stars.length = s.stars.length := by
  by_cases h1 : s.gameState = GameState.PLAYING
  · rw [update_playing h1, cloudsStep_stars, starsStep_stars_eq, mapRand_length,
      particlesStep_stars, physicsStep_stars]
  · by_cases h2 : s.gameState = GameState.EXPLODED
    · rw [update_exploded h2, cloudsStep_stars, starsStep_stars_eq,
        mapRand_length, particlesStep_stars]
    · rw [update_inactive h1 h2]

lemma update_clouds_length (s : Sim) :
    (update s).clouds.length = s.clouds.length := by
  by_cases h1 : s.gameState = GameState.PLAYING
  · rw [update_playing h1, cloudsStep_clouds_eq, mapRand_length,
      starsStep_clouds, particlesStep_clouds, physicsStep_clouds]
  · by_cases h2 : s.gameState = GameState.EXPLODED
    · rw [update_exploded h2, cloudsStep_clouds_eq, mapRand_length,
        starsStep_clouds, particlesStep_clouds]
    · rw [update_inactive h1 h2]

/-- In every reachable state the star and cloud populations are empty
together: both start empty and the tick preserves both lengths, while
`initBackground` (the only seeder, keyed on stars alone) fills both. -/
lemma bgLink_preserved (s : Sim) (h : s.stars = [] ↔ s.clouds = []) :
    ((update s).stars = [] ↔ (update s).clouds = []) ∧
    ((startGame s).stars = [] ↔ (startGame s).clouds = []) := by
  constructor
  · rw [← List.length_eq_zero, ← List.length_eq_zero, update_stars_length,
      update_clouds_length, List.length_eq_zero, List.length_eq_zero]
    exact h
  · unfold startGame
    split
    · have h1 : (initBackground (resetSim s)).stars.length = 100 := by
        rw [initBackground_stars, genList_length]
      have h2 : (initBackground (resetSim s)).clouds.length = 5 := by
        rw [initBackground_clouds, genList_length]
      constructor <;> intro hx
      · exfalso; rw [hx] at h1; simp at h1
      · exfalso; rw [hx] at h2; simp at h2
    · exact h

/-- C9: a start/restart command resets heat, altitude, peak altitude,
vertical velocity and the boost flag to zero/false, empties the particle
pool and sets the state to PLAYING; the star and cloud populations are
left unchanged when nonempty and are seeded (100 stars, 5 clouds) when
empty.  The hypothesis that stars and clouds are empty together is a
reachability invariant established by `bgLink_preserved`. -/
theorem restart_resets (s : Sim) (hlink : s.stars = [] ↔ s.clouds = []) :
    (startGame s).gameState = GameState.PLAYING ∧
    (startGame s).rocket.heat = 0 ∧
    (startGame s).rocket.altitude = 0 ∧
    (startGame s).rocket.maxAltitude = 0 ∧
    (startGame s).rocket.vy = 0 ∧
    (startGame s).rocket.isBoosting = false ∧
    (startGame s).particles = [] ∧
    (¬ s.stars = [] →
      (startGame s).stars = s.stars ∧ (startGame s).clouds = s.clouds ∧
        ¬ s.clouds = []) ∧
    (s.stars = [] →
      (startGame s).stars.length = 100 ∧ (startGame s).clouds.length = 5 ∧
        s.clouds = []) := by
  have hrk := startGame_rocket s
  refine ⟨startGame_gameState s, ?_, ?_, ?_, ?_, ?_, startGame_particles s,
    ?_, ?_⟩
  · rw [hrk]
  · rw [hrk]
  · rw [hrk]
  · rw [hrk]
  · rw [hrk]
  · intro hne
    have hlen : ¬ s.stars.length = 0 := fun h =>
      hne (List.length_eq_zero.mp h)
    unfold startGame
    rw [if_neg hlen]
    exact ⟨rfl, rfl, fun hc => hne (hlink.mpr hc)⟩
  · intro he
    have hlen : s.stars.length = 0 := by rw [he]; rfl
    unfold startGame
    rw [if_pos hlen]
    refine ⟨?_, ?_, hlink.mp he⟩
    · rw [initBackground_stars, genList_length]
    · rw [initBackground_clouds, genList_length]

/-- A FINISHED state with one star and one cloud already seeded. -/
def restartSampleState : Sim :=
  { init0 with
      gameState := GameState.FINISHED
      stars := [{ x := 1, y := 2, size := 1, speed := 1 }]
      clouds := [{ x := 3, y := 4, size := 60, speed := 1 }] }

/-- Witness for C9: restarting from FINISHED with a seeded background
gives a PLAYING state and preserves both populations. -/
theorem restart_resets_witness :
    (startGame restartSampleState).gameState = GameState.PLAYING ∧
    (startGame restartSampleState).stars = restartSampleState.stars ∧
    (startGame restartSampleState).clouds = restartSampleState.clouds := by
  have hlink : restartSampleState.stars = [] ↔ restartSampleState.clouds = [] := by
    constructor <;> intro h <;> exact absurd h (by simp [restartSampleState])
  have h := restart_resets restartSampleState hlink
  obtain ⟨hg, -, -, -, -, -, -, hne, -⟩ := h
  have hx := hne (by simp [restartSampleState])
  exact ⟨hg, hx.1, hx.2.1⟩

end RocketEscape
